import Mathlib

/-!
Verification of the load engine and gRPC burner server of
cloudnative-observability-app against its specification.

The Go code is shallowly embedded:
* `time.Duration` values are `Int` nanoseconds,
* `float64` values used by the fault injector are rationals `ℚ`
  (the code only compares them, never does float arithmetic),
* the `Random` interface (one `Float64` call per run) is a structure
  carrying the value of that single draw,
* `context.Context` is reduced to the facts that influence the embedded
  control flow (whether cancellation fires during the latency sleep),
* goroutine starts and other effects of `Run` are recorded in an explicit
  event trace so that ordering claims can be stated.
-/

namespace LoadEngine

/-- One nanosecond units, as in Go `time.Duration`. -/
abbrev Duration := Int

def millisecond : Duration := 1000000

def second : Duration := 1000000000

/-- Go `load.Mode` is a string type. -/
abbrev Mode := String

def ModeCPU : Mode := "cpu"

def ModeMem : Mode := "mem"

def ModeCPUMem : Mode := "cpu-mem"

def ModeIo : Mode := "io"

/-- The `load.Random` interface: a source of uniform draws from [0,1).
`shouldError` takes at most one draw, so the source is modelled by the
value of that single draw. -/
structure Random where
  Float64 : ℚ
deriving DecidableEq, Repr

/-- Go struct `load.Config` (`Mode` is the string mode, durations are
nanosecond integers). -/
structure Config where
  Mode : String
  Duration : Int
  AllocMB : Int
  Parallelism : Int
  IOBytes : Int
  Latency : Int
  ErrorRate : ℚ
  Rand : Option Random
deriving DecidableEq, Repr

/-- Go struct `load.Limits`. -/
structure Limits where
  MaxDuration : Int
  MaxAllocMB : Int
  MaxParallelism : Int
deriving DecidableEq, Repr

/-- Go `load.DefaultLimits`; `runtime.NumCPU()` is an environment input. -/
def DefaultLimits (numCPU : Nat) : Limits :=
  { MaxDuration := 60 * second
    MaxAllocMB := 512
    MaxParallelism := (numCPU : Int) * 4 }

/-- The `error` values the load package can return.  Sentinel errors keep
their names; `errors.New` literals are carried as `.msg`. -/
inductive LoadError where
  | invalidMode (m : String)
  | durationTooLarge
  | allocTooLarge
  | parallelismTooHigh
  | injected
  | msg (s : String)
deriving DecidableEq, Repr

/-- `err.Error()` for each `LoadError`, with the exact Go strings
(`ErrInvalidMode` is wrapped by `fmt.Errorf("%w: %q", ...)`). -/
def LoadError.message : LoadError → String
  | .invalidMode m => "load: invalid mode: \"" ++ m ++ "\""
  | .durationTooLarge => "load:duration exceeds max "
  | .allocTooLarge => "load: alloc_mb exceeds max"
  | .parallelismTooHigh => "load: parallelism exceeds max"
  | .injected => "load: injected error"
  | .msg s => s

/-- The mode `switch` of Go `validateConfig` (mode-specific positivity
checks, `default` rejecting unknown modes). -/
def modeCheck (cfg : Config) : Option LoadError :=
  if cfg.Mode = ModeCPU then
    if cfg.Parallelism ≤ 0 then some (.msg "load: parallelism must be > 0 for cpu mode")
    else none
  else if cfg.Mode = ModeMem then
    if cfg.AllocMB ≤ 0 then some (.msg "load: alloc_mb must be > 0 for mem mode")
    else none
  else if cfg.Mode = ModeCPUMem then
    if cfg.Parallelism ≤ 0 then some (.msg "load: parallelism must be > 0 for cpu-mem mode")
    else if cfg.AllocMB ≤ 0 then some (.msg "load: alloc_mb must be > 0 for cpu-mem mode")
    else none
  else if cfg.Mode = ModeIo then
    if cfg.IOBytes ≤ 0 then some (.msg "load: io_bytes must be > 0 for io mode")
    else none
  else some (.invalidMode cfg.Mode)

/-- Go `load.validateConfig`: duration checks, common parameter checks,
mode switch, then the upper-bound guards (which run for every mode). -/
def validateConfig (cfg : Config) (limits : Limits) : Option LoadError :=
  if cfg.Duration ≤ 0 then some (.msg "load: duration must be > 0")
  else if 0 < limits.MaxDuration ∧ limits.MaxDuration < cfg.Duration then
    some .durationTooLarge
  else if cfg.Latency < 0 then some (.msg "load: latency must be >= 0")
  else if cfg.ErrorRate < 0 ∨ 1 < cfg.ErrorRate then
    some (.msg "load: error_rate must be between 0 and 1")
  else
    match modeCheck cfg with
    | some e => some e
    | none =>
      if 0 < limits.MaxAllocMB ∧ limits.MaxAllocMB < cfg.AllocMB then
        some .allocTooLarge
      else if 0 < limits.MaxParallelism ∧ limits.MaxParallelism < cfg.Parallelism then
        some .parallelismTooHigh
      else none

/-- Go method `Config.rand`: the injected source when `Rand != nil`,
otherwise a freshly constructed time-seeded generator.  The time-seeded
generator is an environment input `defaultGen`; the returned flag records
whether it was constructed. -/
def Config.randE (c : Config) (defaultGen : Random) : Random × Bool :=
  match c.Rand with
  | some r => (r, false)
  | none => (defaultGen, true)

def Config.rand (c : Config) (defaultGen : Random) : Random :=
  (c.randE defaultGen).1

/-- Effects of one `shouldError` evaluation: how many `Float64` draws were
taken and whether the time-seeded default generator was constructed. -/
structure RandEffects where
  float64Calls : Nat
  defaultConstructed : Bool
deriving DecidableEq, Repr

/-- Go `load.shouldError`, instrumented with its random-source effects. -/
def shouldErrorE (cfg : Config) (defaultGen : Random) : Bool × RandEffects :=
  if cfg.ErrorRate ≤ 0 then (false, ⟨0, false⟩)
  else if 1 ≤ cfg.ErrorRate then (true, ⟨0, false⟩)
  else
    let rc := cfg.randE defaultGen
    let v := rc.1.Float64
    (decide (v < cfg.ErrorRate), ⟨1, rc.2⟩)

/-- Go `load.shouldError` (the decision alone). -/
def shouldError (cfg : Config) (defaultGen : Random) : Bool :=
  (shouldErrorE cfg defaultGen).1

/-- The facts about the caller's `context.Context` and the run-scoped
timeout context that can influence the embedded control flow of `Run`:
whether cancellation fires while the latency sleep is pending.
Cancellation of workers only affects timing, never the returned value. -/
structure Ctx where
  cancelledDuringSleep : Bool
deriving DecidableEq, Repr

/-- Workers `Run` can start. -/
inductive Worker where
  | cpu
  | mem
  | iow
deriving DecidableEq, Repr

/-- Events of one `Run` invocation, in program order. -/
inductive Ev where
  /-- `context.WithTimeout(ctx, cfg.Duration)` was created. -/
  | cancelCtxCreated
  /-- `maybeSleep` actually slept (`d > 0`); the flag records whether the
  sleep was cut short by cancellation (both paths return normally). -/
  | latencySleep (wokenEarly : Bool)
  /-- `shouldError` was evaluated. -/
  | faultDecision
  /-- `startCPULoad` / `startMemLoad` / `startIOLoad` was called. -/
  | workerStart (w : Worker)
deriving DecidableEq, Repr

/-- Go `load.maybeSleep`, as the events it contributes: no event when
`d <= 0`; otherwise one sleep, returning normally whether the timer fired
or the context was cancelled first. -/
def maybeSleepEv (ctx : Ctx) (d : Int) : List Ev :=
  if d ≤ 0 then [] else [.latencySleep ctx.cancelledDuringSleep]

/-- The worker-start calls of `Run`'s mode `switch`, paired with its
result: the `default` branch returns `ErrInvalidMode`, every other branch
waits for its workers and returns `nil`. -/
def modeSwitch (cfg : Config) : Option LoadError × List Ev :=
  if cfg.Mode = ModeCPU then (none, [.workerStart .cpu])
  else if cfg.Mode = ModeMem then (none, [.workerStart .mem])
  else if cfg.Mode = ModeCPUMem then (none, [.workerStart .cpu, .workerStart .mem])
  else if cfg.Mode = ModeIo then (none, [.workerStart .iow])
  else (some (.invalidMode cfg.Mode), [])

/-- Go `load.Run`: validate against `DefaultLimits`; on failure return at
once (no timeout context, no sleep, no worker).  Otherwise create the
run-scoped timeout context, apply the latency sleep, evaluate the fault
injector (returning `ErrInjected` without starting workers when it fires),
then start the mode's workers, wait for them, and return `nil`.
The result is paired with the event trace. -/
def Run (ctx : Ctx) (cfg : Config) (defaultGen : Random) (numCPU : Nat) :
    Option LoadError × List Ev :=
  match validateConfig cfg (DefaultLimits numCPU) with
  | some e => (some e, [])
  | none =>
    let pre := Ev.cancelCtxCreated :: maybeSleepEv ctx cfg.Latency ++ [Ev.faultDecision]
    if shouldError cfg defaultGen then (some .injected, pre)
    else
      let sw := modeSwitch cfg
      (sw.1, pre ++ sw.2)

/-- The value `Run` returns to its caller. -/
def runResult (ctx : Ctx) (cfg : Config) (defaultGen : Random) (numCPU : Nat) :
    Option LoadError :=
  (Run ctx cfg defaultGen numCPU).1

end LoadEngine

namespace Burner

open LoadEngine

/-- A clean transport: no context error, no send/receive failure. -/
def noErr : Nat → Option String := fun _ => none

/-- A fixed environment of time-seeded generators, each returning 7/10. -/
def constGen : Nat → LoadEngine.Random := fun _ => ⟨7/10⟩

/-- The proto enum `grpcburnerv1.LoadMode`. -/
inductive LoadMode where
  | unspecified
  | cpu
  | mem
  | cpuMem
  | ioLoad
deriving DecidableEq, Repr

/-- `%v` rendering of a `LoadMode` value (the enum value's name). -/
def LoadMode.str : LoadMode → String
  | .unspecified => "LOAD_MODE_UNSPECIFIED"
  | .cpu => "LOAD_MODE_CPU"
  | .mem => "LOAD_MODE_MEM"
  | .cpuMem => "LOAD_MODE_CPU_MEM"
  | .ioLoad => "LOAD_MODE_IO"

/-- The proto message `grpcburnerv1.WorkConfig` (wire fields used by the
server: mode, durations in milliseconds, sizes, error rate). -/
structure WorkConfig where
  mode : LoadMode
  durationMs : Int
  allocMb : Int
  parallelism : Int
  ioBytes : Int
  latencyMs : Int
  errorRate : ℚ
deriving DecidableEq, Repr

/-- The mode `switch` of `workConfigFromProto`: the four recognized enum
values map to load modes, everything else hits `default`. -/
def modeFromProto : LoadMode → Option String
  | .cpu => some ModeCPU
  | .mem => some ModeMem
  | .cpuMem => some ModeCPUMem
  | .ioLoad => some ModeIo
  | .unspecified => none

/-- Go `server.workConfigFromProto`: a nil message or unrecognized mode is
an error; otherwise wire fields are converted into a `load.Config`
(milliseconds to durations); the `Rand` field is left at its zero value
`nil`. -/
def workConfigFromProto (pc : Option WorkConfig) : Except String Config :=
  match pc with
  | none => .error "config is required"
  | some pc =>
    match modeFromProto pc.mode with
    | none => .error ("unsupported mode: " ++ pc.mode.str)
    | some mode =>
      .ok { Mode := mode
            Duration := pc.durationMs * millisecond
            AllocMB := pc.allocMb
            Parallelism := pc.parallelism
            IOBytes := pc.ioBytes
            Latency := pc.latencyMs * millisecond
            ErrorRate := pc.errorRate
            Rand := none }

/-- The proto message `grpcburnerv1.DoWorkRequest`. -/
structure DoWorkRequest where
  requestId : String
  config : Option WorkConfig
deriving DecidableEq, Repr

/-- The proto message `grpcburnerv1.DoWorkResponse`. -/
structure DoWorkResponse where
  requestId : String
  ok : Bool
  errorMessage : String
deriving DecidableEq, Repr

/-- The proto message `grpcburnerv1.DoWorkSummary`.  The
`total`/`success`/`failed` fields are `int32` on the wire: the server
copies them from the `int32` accumulator, so they always lie in
[-2^31, 2^31). -/
structure DoWorkSummary where
  requestId : String
  total : Int
  success : Int
  failed : Int
deriving DecidableEq, Repr

/-- Go `GrpcBurnerServer.DoWork` (unary): nil request is a call error;
a config-translation failure or a failing run is reported in the response
with `ok=false`; otherwise `ok=true`.  `Except.error` stands for the
handler returning a non-nil Go `error` (a transport-level call error). -/
def DoWork (req : Option DoWorkRequest) (ctx : Ctx) (defaultGen : Random)
    (numCPU : Nat) : Except String DoWorkResponse :=
  match req with
  | none => .error "request is nil"
  | some req =>
    match workConfigFromProto req.config with
    | .error e =>
      .ok { requestId := req.requestId, ok := false
            errorMessage := "invalid config: " ++ e }
    | .ok cfg =>
      match runResult ctx cfg defaultGen numCPU with
      | some e =>
        .ok { requestId := req.requestId, ok := false, errorMessage := e.message }
      | none => .ok { requestId := req.requestId, ok := true, errorMessage := "" }

/-- The proto message `grpcburnerv1.DoWorkServerStreamingRequest`. -/
structure ServerStreamingRequest where
  requestId : String
  config : Option WorkConfig
  repeatCount : Int
deriving DecidableEq, Repr

/-- The response sent for one run outcome (shared by the server-streaming
and bidi loops): `Ok` iff the run returned no error, with the error's
message otherwise. -/
def respOfRun (reqId : String) (runErr : Option LoadError) : DoWorkResponse :=
  { requestId := reqId
    ok := runErr.isNone
    errorMessage := match runErr with | some e => e.message | none => "" }

/-- The iteration loop of `DoWorkServerStreaming`.  `ctxErr i` models
`stream.Context().Err()` before iteration `i`, `sendErr i` a failure of
`stream.Send` at iteration `i`, `gens i` the time-seeded generator the
`i`-th `load.Run` would construct.  Returns the responses actually
delivered and the handler's returned error. -/
def ssLoop (cfg : Config) (reqId : String) (ctxErr sendErr : Nat → Option String)
    (ctx : Ctx) (gens : Nat → Random) (numCPU : Nat) :
    Nat → Nat → List DoWorkResponse × Option String
  | 0, _ => ([], none)
  | fuel + 1, i =>
    match ctxErr i with
    | some e => ([], some e)
    | none =>
      let resp := respOfRun reqId (runResult ctx cfg (gens i) numCPU)
      match sendErr i with
      | some e => ([], some e)
      | none =>
        let rest := ssLoop cfg reqId ctxErr sendErr ctx gens numCPU fuel (i + 1)
        (resp :: rest.1, rest.2)

/-- Go `GrpcBurnerServer.DoWorkServerStreaming`: nil request and
`repeat <= 0` are call errors; a config-translation failure is returned as
a call error (before any send); otherwise the same config is run `repeat`
times, each outcome sent as one stream item in order. -/
def DoWorkServerStreaming (req : Option ServerStreamingRequest)
    (ctxErr sendErr : Nat → Option String) (ctx : Ctx) (gens : Nat → Random)
    (numCPU : Nat) : List DoWorkResponse × Option String :=
  match req with
  | none => ([], some "request is nil")
  | some req =>
    if req.repeatCount ≤ 0 then ([], some "repeat must be > 0")
    else
      match workConfigFromProto req.config with
      | .error e => ([], some ("invalid config: " ++ e))
      | .ok cfg =>
        ssLoop cfg req.requestId ctxErr sendErr ctx gens numCPU
          req.repeatCount.toNat 0

/-- Reduction of an integer to Go `int32` two's-complement range
[-2^31, 2^31): Go's signed integer arithmetic wraps on overflow. -/
def int32wrap (x : Int) : Int :=
  (x + 2147483648) % 4294967296 - 2147483648

/-- The accumulator of `DoWorkClientStreaming`'s receive loop.  The
`total`/`success`/`failed` counters are Go `int32` values: they are kept
in [-2^31, 2^31) and every increment wraps through `int32wrap`. -/
structure CsAcc where
  total : Int
  success : Int
  failed : Int
  summaryReq : String
deriving DecidableEq, Repr

/-- One iteration of the client-streaming receive loop: count the item
(`int32` increment), remember the first non-empty request id, tally a
config-translation failure as `failed` (continuing), otherwise tally the
run outcome. -/
def csStep (ctx : Ctx) (gen : Random) (numCPU : Nat) (acc : CsAcc)
    (req : DoWorkRequest) : CsAcc :=
  let total := int32wrap (acc.total + 1)
  let summaryReq := if acc.summaryReq = "" then req.requestId else acc.summaryReq
  match workConfigFromProto req.config with
  | .error _ =>
    { acc with
        total := total
        failed := int32wrap (acc.failed + 1)
        summaryReq := summaryReq }
  | .ok cfg =>
    match runResult ctx cfg gen numCPU with
    | some _ =>
      { acc with
          total := total
          failed := int32wrap (acc.failed + 1)
          summaryReq := summaryReq }
    | none =>
      { acc with
          total := total
          success := int32wrap (acc.success + 1)
          summaryReq := summaryReq }

/-- The client-streaming receive loop over the inbound items (`gens i` is
the generator available to the run of the item at position `i`). -/
def csLoop (ctx : Ctx) (gens : Nat → Random) (numCPU : Nat) :
    List DoWorkRequest → Nat → CsAcc → CsAcc
  | [], _, acc => acc
  | req :: rest, i, acc =>
    csLoop ctx gens numCPU rest (i + 1) (csStep ctx (gens i) numCPU acc req)

/-- Go `GrpcBurnerServer.DoWorkClientStreaming`: receive until the peer
closes the stream, tallying each item, then send one summary.  `items` are
the inbound requests; `recvErr` models `stream.Recv` failing (non-EOF)
after them instead of a clean close, `sendCloseErr` a failing
`SendAndClose`.  `Except.error` is the handler returning a call error. -/
def DoWorkClientStreaming (items : List DoWorkRequest) (recvErr : Option String)
    (sendCloseErr : Option String) (ctx : Ctx) (gens : Nat → Random)
    (numCPU : Nat) : Except String DoWorkSummary :=
  let acc := csLoop ctx gens numCPU items 0 ⟨0, 0, 0, ""⟩
  match recvErr with
  | some e => .error e
  | none =>
    match sendCloseErr with
    | some e => .error e
    | none =>
      .ok { requestId := acc.summaryReq, total := acc.total
            success := acc.success, failed := acc.failed }

/-- The response `DoWorkBidiStreaming` builds for one inbound item:
`ok` iff translation and run both succeed, with the config error or run
error as message otherwise. -/
def bidiResp (ctx : Ctx) (gen : Random) (numCPU : Nat) (req : DoWorkRequest) :
    DoWorkResponse :=
  match workConfigFromProto req.config with
  | .ok cfg =>
    match runResult ctx cfg gen numCPU with
    | some e => { requestId := req.requestId, ok := false, errorMessage := e.message }
    | none => { requestId := req.requestId, ok := true, errorMessage := "" }
  | .error ce => { requestId := req.requestId, ok := false, errorMessage := ce }

/-- The bidi receive/run/send loop: one response per inbound item, in
order; a send failure aborts the call; exhausting the inbound items stands
for `Recv` returning `io.EOF` (clean termination) unless `recvErr` models
a receive failure instead. -/
def bidiLoop (recvErr : Option String) (sendErr : Nat → Option String)
    (ctx : Ctx) (gens : Nat → Random) (numCPU : Nat) :
    List DoWorkRequest → Nat → List DoWorkResponse × Option String
  | [], _ => ([], recvErr)
  | req :: rest, i =>
    let resp := bidiResp ctx (gens i) numCPU req
    match sendErr i with
    | some e => ([], some e)
    | none =>
      let next := bidiLoop recvErr sendErr ctx gens numCPU rest (i + 1)
      (resp :: next.1, next.2)

/-- Go `GrpcBurnerServer.DoWorkBidiStreaming`. -/
def DoWorkBidiStreaming (items : List DoWorkRequest) (recvErr : Option String)
    (sendErr : Nat → Option String) (ctx : Ctx) (gens : Nat → Random)
    (numCPU : Nat) : List DoWorkResponse × Option String :=
  bidiLoop recvErr sendErr ctx gens numCPU items 0

end Burner

namespace LoadEngine

lemma shouldErrorE_of_nonpos {cfg : Config} (g : Random)
    (h : cfg.ErrorRate ≤ 0) : shouldErrorE cfg g = (false, ⟨0, false⟩) := by
  simp [shouldErrorE, h]

lemma shouldErrorE_of_ge_one {cfg : Config} (g : Random)
    (h : 1 ≤ cfg.ErrorRate) : shouldErrorE cfg g = (true, ⟨0, false⟩) := by
  have h0 : ¬ cfg.ErrorRate ≤ 0 := by linarith
  simp [shouldErrorE, h0, h]

lemma shouldErrorE_of_mid {cfg : Config} (g : Random)
    (h1 : 0 < cfg.ErrorRate) (h2 : cfg.ErrorRate < 1) :
    shouldErrorE cfg g =
      (decide ((cfg.rand g).Float64 < cfg.ErrorRate), ⟨1, (cfg.randE g).2⟩) := by
  have h0 : ¬ cfg.ErrorRate ≤ 0 := not_le.mpr h1
  have h3 : ¬ 1 ≤ cfg.ErrorRate := not_le.mpr h2
  simp [shouldErrorE, h0, h3, Config.rand]

lemma shouldError_draws_le_one (cfg : Config) (g : Random) :
    (shouldErrorE cfg g).2.float64Calls ≤ 1 := by
  by_cases h0 : cfg.ErrorRate ≤ 0
  · simp [shouldErrorE_of_nonpos g h0]
  · by_cases h1 : 1 ≤ cfg.ErrorRate
    · simp [shouldErrorE_of_ge_one g h1]
    · simp [shouldErrorE_of_mid g (not_le.mp h0) (not_le.mp h1)]

lemma modeCheck_ne_injected (cfg : Config) : modeCheck cfg ≠ some .injected := by
  unfold modeCheck
  split_ifs <;> simp

lemma validateConfig_ne_injected (cfg : Config) (l : Limits) :
    validateConfig cfg l ≠ some .injected := by
  unfold validateConfig
  split_ifs <;> try simp
  all_goals
    cases h : modeCheck cfg with
    | some e =>
      have he : e ≠ LoadError.injected := by
        intro he
        exact modeCheck_ne_injected cfg (he ▸ h)
      simp [he]
    | none => simp

lemma modeSwitch_fst_ne_injected (cfg : Config) :
    (modeSwitch cfg).1 ≠ some .injected := by
  unfold modeSwitch
  split_ifs <;> simp

lemma modeCheck_none_modeSwitch (cfg : Config) (h : modeCheck cfg = none) :
    (modeSwitch cfg).1 = none := by
  unfold modeCheck at h
  unfold modeSwitch
  split_ifs at h ⊢ <;> simp_all

lemma validateConfig_none_modeCheck {cfg : Config} {l : Limits}
    (h : validateConfig cfg l = none) : modeCheck cfg = none := by
  unfold validateConfig at h
  split_ifs at h <;> try simp_all
  all_goals
    cases hm : modeCheck cfg with
    | some e => rw [hm] at h; simp at h
    | none => rfl

lemma runResult_ne_injected_of_nonpos {cfg : Config} (ctx : Ctx) (g : Random)
    (numCPU : Nat) (h : cfg.ErrorRate ≤ 0) :
    runResult ctx cfg g numCPU ≠ some .injected := by
  unfold runResult Run
  cases hv : validateConfig cfg (DefaultLimits numCPU) with
  | some e =>
    simp only [hv]
    intro hcontra
    apply validateConfig_ne_injected cfg (DefaultLimits numCPU)
    rw [hv]
    simpa using hcontra
  | none =>
    have hs : shouldError cfg g = false := by
      simp [shouldError, shouldErrorE_of_nonpos g h]
    simp [hv, hs]
    exact modeSwitch_fst_ne_injected cfg

lemma runResult_injected_of_ge_one {cfg : Config} (ctx : Ctx) (g : Random)
    {numCPU : Nat} (h : 1 ≤ cfg.ErrorRate)
    (hv : validateConfig cfg (DefaultLimits numCPU) = none) :
    runResult ctx cfg g numCPU = some .injected := by
  have hs : shouldError cfg g = true := by
    simp [shouldError, shouldErrorE_of_ge_one g h]
  simp [runResult, Run, hv, hs]

/-- A CPU-mode config used for concrete instantiations: error rate `rate`,
random source `r`, all other fields valid for CPU mode. -/
def cpuCfg (rate : ℚ) (r : Option Random) : Config :=
  { Mode := "cpu", Duration := second, AllocMB := 0, Parallelism := 1
    IOBytes := 0, Latency := 0, ErrorRate := rate, Rand := r }

/-- C1: for every work specification the fault decision is a function of
`errorRate` and at most one draw from the random source: with
`errorRate <= 0` the decision is `false` and the run is never aborted with
`ErrInjected`; with `errorRate >= 1` the decision is `true` with no draw
taken and a validated run is aborted with `ErrInjected`; otherwise, with
the random source returning `v`, the injected failure occurs iff
`v < errorRate`. -/
theorem C1_fault_decision (cfg : Config) (g : Random) :
    (shouldErrorE cfg g).2.float64Calls ≤ 1 ∧
    (cfg.ErrorRate ≤ 0 →
      shouldError cfg g = false ∧
      ∀ ctx numCPU, runResult ctx cfg g numCPU ≠ some .injected) ∧
    (1 ≤ cfg.ErrorRate →
      shouldError cfg g = true ∧
      (shouldErrorE cfg g).2.float64Calls = 0 ∧
      ∀ ctx numCPU, validateConfig cfg (DefaultLimits numCPU) = none →
        runResult ctx cfg g numCPU = some .injected) ∧
    (0 < cfg.ErrorRate → cfg.ErrorRate < 1 →
      (shouldError cfg g = true ↔ (cfg.rand g).Float64 < cfg.ErrorRate)) := by
  refine ⟨shouldError_draws_le_one cfg g, ?_, ?_, ?_⟩
  · intro h
    exact ⟨by simp [shouldError, shouldErrorE_of_nonpos g h],
      fun ctx numCPU => runResult_ne_injected_of_nonpos ctx g numCPU h⟩
  · intro h
    refine ⟨by simp [shouldError, shouldErrorE_of_ge_one g h],
      by simp [shouldErrorE_of_ge_one g h],
      fun ctx numCPU hv => runResult_injected_of_ge_one ctx g h hv⟩
  · intro h1 h2
    simp [shouldError, shouldErrorE_of_mid g h1 h2]

/-- Concrete instantiation of `C1_fault_decision`: rate 0 never injects,
rate 1 always decides to inject, and with rate 1/2 and a fixed source
returning 1/4 the decision is to inject. -/
theorem C1_fault_decision_witness :
    shouldError (cpuCfg 0 none) ⟨7/10⟩ = false ∧
    shouldError (cpuCfg 1 none) ⟨7/10⟩ = true ∧
    shouldError (cpuCfg (1/2) (some ⟨1/4⟩)) ⟨7/10⟩ = true := by
  refine ⟨((C1_fault_decision (cpuCfg 0 none) ⟨7/10⟩).2.1 (by norm_num [cpuCfg])).1,
    ((C1_fault_decision (cpuCfg 1 none) ⟨7/10⟩).2.2.1 (by norm_num [cpuCfg])).1,
    ((C1_fault_decision (cpuCfg (1/2) (some ⟨1/4⟩)) ⟨7/10⟩).2.2.2
      (by norm_num [cpuCfg]) (by norm_num [cpuCfg])).mpr ?_⟩
  norm_num [cpuCfg, Config.rand, Config.randE]

/-- C10: with `errorRate <= 0` or `errorRate >= 1` the fault decision never
draws from the random source (`Float64` is not called) and never constructs
the time-seeded default generator, and the decision does not depend on the
environment's generator at all (so a nil `Rand` field is harmless there);
the default generator is constructed only when `0 < errorRate < 1` and no
source was supplied. -/
theorem C10_no_draw_on_boundary (cfg : Config) (g : Random) :
    ((cfg.ErrorRate ≤ 0 ∨ 1 ≤ cfg.ErrorRate) →
      (shouldErrorE cfg g).2.float64Calls = 0 ∧
      (shouldErrorE cfg g).2.defaultConstructed = false ∧
      ∀ g2, shouldError cfg g = shouldError cfg g2) ∧
    ((shouldErrorE cfg g).2.defaultConstructed = true →
      0 < cfg.ErrorRate ∧ cfg.ErrorRate < 1 ∧ cfg.Rand = none) := by
  constructor
  · rintro (h | h)
    · exact ⟨by simp [shouldErrorE_of_nonpos g h],
        by simp [shouldErrorE_of_nonpos g h],
        fun g2 => by simp [shouldError, shouldErrorE_of_nonpos g h,
          shouldErrorE_of_nonpos g2 h]⟩
    · exact ⟨by simp [shouldErrorE_of_ge_one g h],
        by simp [shouldErrorE_of_ge_one g h],
        fun g2 => by simp [shouldError, shouldErrorE_of_ge_one g h,
          shouldErrorE_of_ge_one g2 h]⟩
  · intro h
    by_cases h0 : cfg.ErrorRate ≤ 0
    · rw [shouldErrorE_of_nonpos g h0] at h
      simp at h
    · by_cases h1 : 1 ≤ cfg.ErrorRate
      · rw [shouldErrorE_of_ge_one g h1] at h
        simp at h
      · refine ⟨not_le.mp h0, not_le.mp h1, ?_⟩
        rw [shouldErrorE_of_mid g (not_le.mp h0) (not_le.mp h1)] at h
        cases hr : cfg.Rand with
        | some r => rw [Config.randE, hr] at h; simp at h
        | none => rfl

/-- Concrete instantiation of `C10_no_draw_on_boundary`: at rate 1 no draw
is taken and no default generator is constructed; at rate 1/2 with no
supplied source the default generator is constructed. -/
theorem C10_no_draw_on_boundary_witness :
    (shouldErrorE (cpuCfg 1 none) ⟨7/10⟩).2.float64Calls = 0 ∧
    (0 < (cpuCfg (1/2) none).ErrorRate ∧ (cpuCfg (1/2) none).ErrorRate < 1 ∧
      (cpuCfg (1/2) none).Rand = none) :=
  ⟨((C10_no_draw_on_boundary (cpuCfg 1 none) ⟨7/10⟩).1
      (Or.inr (by norm_num [cpuCfg]))).1,
    (C10_no_draw_on_boundary (cpuCfg (1/2) none) ⟨7/10⟩).2
      (by norm_num [shouldErrorE, cpuCfg, Config.randE])⟩

lemma modeCheck_cpu_none {cfg : Config} (hmode : cfg.Mode = ModeCPU)
    (hp : 0 < cfg.Parallelism) : modeCheck cfg = none := by
  unfold modeCheck
  simp [hmode, not_le.mpr hp]

/-- C2 fails as stated: the `MaxAllocMB` upper-bound guard of the validator
runs for every mode, so a CPU-mode spec with valid duration, latency,
error rate and parallelism but `allocMB = 513` is rejected with
`ErrAllocTooLarge` under the default limits, although CPU mode never uses
`allocMB`. -/
theorem C2_counterexample :
    validateConfig
      { Mode := "cpu", Duration := second, AllocMB := 513, Parallelism := 1
        IOBytes := 0, Latency := 0, ErrorRate := 0, Rand := none }
      (DefaultLimits 1) = some .allocTooLarge := by
  decide

/-- C2 amended: mode-specific positivity validation only covers the fields
the mode requires (`ioBytes` and `allocMB` are never positivity-checked for
a CPU spec), but the `MaxAllocMB`/`MaxParallelism` upper-bound guards apply
to every mode; a CPU-mode spec with valid duration, latency, error rate and
parallelism passes validation for arbitrary `ioBytes` and for any `allocMB`
not exceeding a positive `MaxAllocMB` limit. -/
theorem C2_unused_fields_ignored (cfg : Config) (limits : Limits)
    (hmode : cfg.Mode = ModeCPU)
    (hd : 0 < cfg.Duration)
    (hdl : 0 < limits.MaxDuration → cfg.Duration ≤ limits.MaxDuration)
    (hl : 0 ≤ cfg.Latency)
    (he0 : 0 ≤ cfg.ErrorRate) (he1 : cfg.ErrorRate ≤ 1)
    (hp : 0 < cfg.Parallelism)
    (hpl : 0 < limits.MaxParallelism → cfg.Parallelism ≤ limits.MaxParallelism)
    (hal : 0 < limits.MaxAllocMB → cfg.AllocMB ≤ limits.MaxAllocMB) :
    validateConfig cfg limits = none := by
  unfold validateConfig
  rw [modeCheck_cpu_none hmode hp]
  split_ifs with h1 h2 h3 h4 h5 h6
  · omega
  · exact absurd (hdl h2.1) (not_le.mpr h2.2)
  · omega
  · rcases h4 with h | h <;> linarith
  · exact absurd (hal h5.1) (not_le.mpr h5.2)
  · exact absurd (hpl h6.1) (not_le.mpr h6.2)
  · rfl

/-- Concrete instantiation of `C2_unused_fields_ignored`: a CPU spec with
`ioBytes = -7` and `allocMB = 512` (at the default limit) validates. -/
theorem C2_unused_fields_ignored_witness :
    validateConfig
      { Mode := "cpu", Duration := second, AllocMB := 512, Parallelism := 1
        IOBytes := -7, Latency := 0, ErrorRate := 0, Rand := none }
      (DefaultLimits 1) = none :=
  C2_unused_fields_ignored _ _ rfl (by norm_num [second])
    (by norm_num [DefaultLimits, second]) (by norm_num) (by norm_num)
    (by norm_num) (by norm_num) (by norm_num [DefaultLimits])
    (by norm_num [DefaultLimits])

lemma modeCheck_none_facts {cfg : Config} (h : modeCheck cfg = none) :
    (cfg.Mode = ModeCPU ∧ 0 < cfg.Parallelism) ∨
    (cfg.Mode = ModeMem ∧ 0 < cfg.AllocMB) ∨
    (cfg.Mode = ModeCPUMem ∧ 0 < cfg.Parallelism ∧ 0 < cfg.AllocMB) ∨
    (cfg.Mode = ModeIo ∧ 0 < cfg.IOBytes) := by
  unfold modeCheck at h
  split_ifs at h <;> simp_all

lemma validateConfig_none_facts {cfg : Config} {limits : Limits}
    (h : validateConfig cfg limits = none) :
    0 < cfg.Duration ∧
    (0 < limits.MaxDuration → cfg.Duration ≤ limits.MaxDuration) ∧
    0 ≤ cfg.Latency ∧ 0 ≤ cfg.ErrorRate ∧ cfg.ErrorRate ≤ 1 ∧
    ((cfg.Mode = ModeCPU ∧ 0 < cfg.Parallelism) ∨
      (cfg.Mode = ModeMem ∧ 0 < cfg.AllocMB) ∨
      (cfg.Mode = ModeCPUMem ∧ 0 < cfg.Parallelism ∧ 0 < cfg.AllocMB) ∨
      (cfg.Mode = ModeIo ∧ 0 < cfg.IOBytes)) := by
  have hm := validateConfig_none_modeCheck h
  unfold validateConfig at h
  split_ifs at h with h1 h2 h3 h4 h5 h6 <;> try (rw [hm] at h; simp at h)
  refine ⟨by omega, fun hpos => ?_, by omega, ?_, ?_, modeCheck_none_facts hm⟩
  · by_contra hgt
    exact h2 ⟨hpos, not_le.mp hgt⟩
  · exact not_lt.mp (not_or.mp h4).1
  · exact not_lt.mp (not_or.mp h4).2

/-- C5: the validator rejects every spec with `duration <= 0`, negative
latency, `errorRate` outside [0,1], non-positive parallelism in CPU or
CPU_MEM mode, non-positive allocMB in MEM or CPU_MEM mode, non-positive
ioBytes in IO mode, an unknown mode, or a duration exceeding a positive
`maxDuration` limit, regardless of the other fields. -/
theorem C5_validator_rejections (cfg : Config) (limits : Limits)
    (h : cfg.Duration ≤ 0 ∨ cfg.Latency < 0 ∨
      cfg.ErrorRate < 0 ∨ 1 < cfg.ErrorRate ∨
      ((cfg.Mode = ModeCPU ∨ cfg.Mode = ModeCPUMem) ∧ cfg.Parallelism ≤ 0) ∨
      ((cfg.Mode = ModeMem ∨ cfg.Mode = ModeCPUMem) ∧ cfg.AllocMB ≤ 0) ∨
      (cfg.Mode = ModeIo ∧ cfg.IOBytes ≤ 0) ∨
      (cfg.Mode ≠ ModeCPU ∧ cfg.Mode ≠ ModeMem ∧
        cfg.Mode ≠ ModeCPUMem ∧ cfg.Mode ≠ ModeIo) ∨
      (0 < limits.MaxDuration ∧ limits.MaxDuration < cfg.Duration)) :
    (validateConfig cfg limits).isSome := by
  cases hv : validateConfig cfg limits with
  | some e => rfl
  | none =>
    exfalso
    obtain ⟨hd, hdl, hl, he0, he1, hmode⟩ := validateConfig_none_facts hv
    rcases h with h | h | h | h | ⟨hm, hp⟩ | ⟨hm, ha⟩ | ⟨hm, hb⟩ | hm | ⟨ha, hb⟩
    · omega
    · omega
    · linarith
    · linarith
    · rcases hm with hm | hm <;>
        rcases hmode with ⟨h', hx⟩ | ⟨h', hx⟩ | ⟨h', hx⟩ | ⟨h', hx⟩ <;>
        simp_all [ModeCPU, ModeMem, ModeCPUMem, ModeIo] <;> omega
    · rcases hm with hm | hm <;>
        rcases hmode with ⟨h', hx⟩ | ⟨h', hx⟩ | ⟨h', hx⟩ | ⟨h', hx⟩ <;>
        simp_all [ModeCPU, ModeMem, ModeCPUMem, ModeIo] <;> omega
    · rcases hmode with ⟨h', hx⟩ | ⟨h', hx⟩ | ⟨h', hx⟩ | ⟨h', hx⟩ <;>
        simp_all [ModeCPU, ModeMem, ModeCPUMem, ModeIo] <;> omega
    · rcases hmode with ⟨h', hx⟩ | ⟨h', hx⟩ | ⟨h', hx⟩ | ⟨h', hx⟩ <;> simp_all
    · exact absurd (hdl ha) (not_le.mpr hb)

lemma runResult_ctx_indep (ctx1 ctx2 : Ctx) (cfg : Config) (g : Random)
    (numCPU : Nat) : runResult ctx1 cfg g numCPU = runResult ctx2 cfg g numCPU := by
  unfold runResult Run
  cases hv : validateConfig cfg (DefaultLimits numCPU) with
  | some e => simp [hv]
  | none => cases hs : shouldError cfg g <;> simp [hv, hs]

lemma modeSwitch_snd_workers (cfg : Config) :
    ∀ e ∈ (modeSwitch cfg).2, ∃ k, e = Ev.workerStart k := by
  unfold modeSwitch
  split_ifs <;> simp

/-- C4: `run` returns an error only for a validation failure or the
injected fault; a validation failure is returned immediately with an empty
event trace (no cancellation context created, no worker started); the
returned value never depends on the context (so deadline- or
cancellation-driven termination is always success), and a validated run
with no injected fault returns success. -/
theorem C4_run_error_conditions (ctx1 ctx2 : Ctx) (cfg : Config) (g : Random)
    (numCPU : Nat) :
    (runResult ctx1 cfg g numCPU = runResult ctx2 cfg g numCPU) ∧
    (∀ e, validateConfig cfg (DefaultLimits numCPU) = some e →
      Run ctx1 cfg g numCPU = (some e, [])) ∧
    (∀ e, runResult ctx1 cfg g numCPU = some e →
      validateConfig cfg (DefaultLimits numCPU) = some e ∨ e = .injected) ∧
    (validateConfig cfg (DefaultLimits numCPU) = none →
      shouldError cfg g = false → runResult ctx1 cfg g numCPU = none) := by
  refine ⟨runResult_ctx_indep ctx1 ctx2 cfg g numCPU, ?_, ?_, ?_⟩
  · intro e hv
    simp [Run, hv]
  · intro e he
    unfold runResult Run at he
    cases hv : validateConfig cfg (DefaultLimits numCPU) with
    | some e2 =>
      rw [hv] at he
      simp at he
      exact Or.inl (congrArg some he)
    | none =>
      rw [hv] at he
      cases hs : shouldError cfg g with
      | true => rw [hs] at he; simp at he; exact Or.inr he.symm
      | false =>
        rw [hs] at he
        simp [modeCheck_none_modeSwitch cfg (validateConfig_none_modeCheck hv)] at he
  · intro hv hs
    simp [runResult, Run, hv, hs,
      modeCheck_none_modeSwitch cfg (validateConfig_none_modeCheck hv)]

/-- Concrete instantiations of `C4_run_error_conditions`: a spec with zero
duration is rejected with an empty trace, and a valid CPU spec with error
rate 0 succeeds under a cancelled and a non-cancelled context alike. -/
theorem C4_run_error_conditions_witness :
    Run ⟨true⟩ { cpuCfg 0 none with Duration := 0 } ⟨7/10⟩ 1 =
      (some (.msg "load: duration must be > 0"), []) ∧
    runResult ⟨true⟩ (cpuCfg 0 none) ⟨7/10⟩ 1 = none ∧
    runResult ⟨true⟩ (cpuCfg 0 none) ⟨7/10⟩ 1 =
      runResult ⟨false⟩ (cpuCfg 0 none) ⟨7/10⟩ 1 :=
  ⟨(C4_run_error_conditions ⟨true⟩ ⟨false⟩ _ ⟨7/10⟩ 1).2.1 _ (by decide),
    (C4_run_error_conditions ⟨true⟩ ⟨false⟩ (cpuCfg 0 none) ⟨7/10⟩ 1).2.2.2
      (by decide) (by decide),
    (C4_run_error_conditions ⟨true⟩ ⟨false⟩ (cpuCfg 0 none) ⟨7/10⟩ 1).1⟩

/-- C9: in every validated run the trace is the cancellation-context
creation, then the latency-sleep events, then the fault-injection decision,
then the worker starts: the sleep is skipped when `latency <= 0`, every
event before the fault decision other than the context creation is a sleep
event, no worker start precedes the fault decision, an injected failure
leaves no worker start anywhere in the trace, and cancellation during the
sleep does not change the returned value. -/
theorem C9_phase_ordering (ctx : Ctx) (cfg : Config) (g : Random) (numCPU : Nat)
    (hv : validateConfig cfg (DefaultLimits numCPU) = none) :
    (Run ctx cfg g numCPU).2 =
      Ev.cancelCtxCreated :: maybeSleepEv ctx cfg.Latency ++
        Ev.faultDecision ::
          (if shouldError cfg g then [] else (modeSwitch cfg).2) ∧
    (∀ e ∈ maybeSleepEv ctx cfg.Latency, ∃ b, e = Ev.latencySleep b) ∧
    (cfg.Latency ≤ 0 → maybeSleepEv ctx cfg.Latency = []) ∧
    (∀ e ∈ (modeSwitch cfg).2, ∃ k, e = Ev.workerStart k) ∧
    ((Run ctx cfg g numCPU).1 = some .injected →
      ∀ e ∈ (Run ctx cfg g numCPU).2, ∀ k, e ≠ Ev.workerStart k) ∧
    runResult ctx cfg g numCPU = runResult ⟨false⟩ cfg g numCPU := by
  refine ⟨?_, ?_, ?_, modeSwitch_snd_workers cfg, ?_, runResult_ctx_indep ctx ⟨false⟩ cfg g numCPU⟩
  · cases hs : shouldError cfg g <;> simp [Run, hv, hs]
  · intro e he
    unfold maybeSleepEv at he
    split_ifs at he <;> simp_all
  · intro hl
    simp [maybeSleepEv, hl]
  · intro hres
    cases hs : shouldError cfg g with
    | true =>
      simp only [Run, hv, hs, if_true]
      intro e he k hk
      subst hk
      simp [maybeSleepEv] at he
    | false =>
      exfalso
      have : (Run ctx cfg g numCPU).1 = (modeSwitch cfg).1 := by
        simp [Run, hv, hs]
      rw [this] at hres
      exact modeSwitch_fst_ne_injected cfg hres

end LoadEngine

namespace Burner

open LoadEngine

lemma ssLoop_clean (cfg : Config) (reqId : String) (ctx : Ctx)
    (gens : Nat → Random) (numCPU : Nat) (fuel : Nat) : ∀ i,
    ssLoop cfg reqId noErr noErr ctx gens numCPU fuel i =
      ((List.range fuel).map
        (fun j => respOfRun reqId (runResult ctx cfg (gens (i + j)) numCPU)),
        none) := by
  induction fuel with
  | zero => intro i; rfl
  | succ n ih =>
    intro i
    have step : ssLoop cfg reqId noErr noErr ctx gens numCPU (n + 1) i =
        (respOfRun reqId (runResult ctx cfg (gens i) numCPU) ::
          (ssLoop cfg reqId noErr noErr ctx gens numCPU n (i + 1)).1,
          (ssLoop cfg reqId noErr noErr ctx gens numCPU n (i + 1)).2) := rfl
    rw [step, ih (i + 1), List.range_succ_eq_map]
    simp only [List.map_cons, List.map_map, Prod.mk.injEq]
    refine ⟨?_, trivial⟩
    congr 1
    apply List.map_congr_left
    intro a _
    simp only [Function.comp_apply]
    congr 3
    omega

/-- C6: on a clean transport, server-streaming with a valid config and
`repeat = n > 0` sends exactly `n` responses, in iteration order, the
`i`-th derived from the `i`-th independent run outcome (`ok` iff that run
returned no error), and the handler returns no error; `repeat <= 0` is
rejected before any response is sent. -/
theorem C6_server_streaming (req : ServerStreamingRequest) (ctx : Ctx)
    (gens : Nat → Random) (numCPU : Nat) :
    (req.repeatCount ≤ 0 →
      ∀ ctxErr sendErr,
        DoWorkServerStreaming (some req) ctxErr sendErr ctx gens numCPU =
          ([], some "repeat must be > 0")) ∧
    (∀ cfg, workConfigFromProto req.config = .ok cfg → 0 < req.repeatCount →
      DoWorkServerStreaming (some req) noErr noErr ctx gens numCPU =
        ((List.range req.repeatCount.toNat).map
          (fun i => respOfRun req.requestId (runResult ctx cfg (gens i) numCPU)),
          none) ∧
      (DoWorkServerStreaming (some req) noErr noErr ctx gens numCPU).1.length =
        req.repeatCount.toNat) := by
  constructor
  · intro hr ctxErr sendErr
    simp [DoWorkServerStreaming, hr]
  · intro cfg hcfg hr
    have hne : ¬ req.repeatCount ≤ 0 := not_le.mpr hr
    have heq : DoWorkServerStreaming (some req) noErr noErr ctx gens numCPU =
        ((List.range req.repeatCount.toNat).map
          (fun i => respOfRun req.requestId (runResult ctx cfg (gens i) numCPU)),
          none) := by
      simp only [DoWorkServerStreaming, hne, if_false, hcfg]
      simpa using ssLoop_clean cfg req.requestId ctx gens numCPU
        req.repeatCount.toNat 0
    exact ⟨heq, by simp [heq]⟩

/-- A valid CPU work config on the wire: 1000 ms duration, parallelism 1,
error rate 0. -/
def okWorkCfg : WorkConfig :=
  { mode := .cpu, durationMs := 1000, allocMb := 0, parallelism := 1
    ioBytes := 0, latencyMs := 0, errorRate := 0 }

/-- The `load.Config` that `okWorkCfg` translates to. -/
def okCfg : Config :=
  { Mode := "cpu", Duration := 1000 * millisecond, AllocMB := 0
    Parallelism := 1, IOBytes := 0, Latency := 0, ErrorRate := 0, Rand := none }

/-- Concrete instantiation of `C6_server_streaming`: `repeat = 3` with a
valid config yields exactly 3 in-order responses and no error; `repeat = 0`
is rejected with nothing sent. -/
theorem C6_server_streaming_witness :
    (DoWorkServerStreaming (some ⟨"r", some okWorkCfg, 3⟩) noErr noErr
        ⟨false⟩ constGen 1).1.length = (3 : Int).toNat ∧
    DoWorkServerStreaming (some ⟨"r", some okWorkCfg, 0⟩) noErr noErr
        ⟨false⟩ constGen 1 = ([], some "repeat must be > 0") :=
  ⟨((C6_server_streaming ⟨"r", some okWorkCfg, 3⟩ ⟨false⟩ constGen 1).2
      okCfg (by rfl) (by decide)).2,
    (C6_server_streaming ⟨"r", some okWorkCfg, 0⟩ ⟨false⟩ constGen 1).1
      (by decide) noErr noErr⟩

/-- C3 fails as stated: in the server-streaming shape a config-translation
failure is surfaced as a transport-level call error (the handler returns
the error), not as an `ok=false` item: a request with a nil config and
`repeat = 1` yields no stream items and the call error
"invalid config: config is required". -/
theorem C3_counterexample :
    DoWorkServerStreaming (some ⟨"r", none, 1⟩) noErr noErr ⟨false⟩ constGen 1 =
      ([], some "invalid config: config is required") := by
  decide

/-- The responses a clean bidi call sends: one `bidiResp` per inbound
item, in order. -/
def bidiOut (ctx : Ctx) (gens : Nat → Random) (numCPU : Nat) :
    List DoWorkRequest → Nat → List DoWorkResponse
  | [], _ => []
  | r :: rest, i =>
    bidiResp ctx (gens i) numCPU r :: bidiOut ctx gens numCPU rest (i + 1)

lemma bidiLoop_clean (ctx : Ctx) (gens : Nat → Random) (numCPU : Nat)
    (items : List DoWorkRequest) : ∀ i,
    bidiLoop none noErr ctx gens numCPU items i =
      (bidiOut ctx gens numCPU items i, none) := by
  induction items with
  | nil => intro i; simp [bidiLoop, bidiOut]
  | cons r rest ih =>
    intro i
    simp [bidiLoop, bidiOut, noErr, ih (i + 1)]

/-- C3 amended: a config-translation failure or an injected fault is never
surfaced as a transport-level call error in the unary, client-streaming and
bidi-streaming shapes (it is reported as `ok=false` with a message, or
tallied as failed), and in server-streaming an injected fault is likewise
reported in-band on a clean transport; but a server-streaming
config-translation failure is returned as a call error before any send. -/
theorem C3_no_transport_error (req : DoWorkRequest) (items : List DoWorkRequest)
    (ctx : Ctx) (g : Random) (gens : Nat → Random) (numCPU : Nat) :
    (∀ e, DoWork (some req) ctx g numCPU ≠ .error e) ∧
    (∀ ce, workConfigFromProto req.config = .error ce →
      DoWork (some req) ctx g numCPU =
        .ok ⟨req.requestId, false, "invalid config: " ++ ce⟩) ∧
    (∀ cfg e, workConfigFromProto req.config = .ok cfg →
      runResult ctx cfg g numCPU = some e →
      DoWork (some req) ctx g numCPU = .ok ⟨req.requestId, false, e.message⟩) ∧
    (∀ sreq : ServerStreamingRequest, ∀ cfg, 0 < sreq.repeatCount →
      workConfigFromProto sreq.config = .ok cfg →
      (DoWorkServerStreaming (some sreq) noErr noErr ctx gens numCPU).2 = none) ∧
    (∀ sreq : ServerStreamingRequest, ∀ ce, 0 < sreq.repeatCount →
      workConfigFromProto sreq.config = .error ce →
      DoWorkServerStreaming (some sreq) noErr noErr ctx gens numCPU =
        ([], some ("invalid config: " ++ ce))) ∧
    (∀ e, DoWorkClientStreaming items none none ctx gens numCPU ≠ .error e) ∧
    DoWorkBidiStreaming items none noErr ctx gens numCPU =
      (bidiOut ctx gens numCPU items 0, none) := by
  refine ⟨?_, ?_, ?_, ?_, ?_, ?_,
    bidiLoop_clean ctx gens numCPU items 0⟩
  · intro e
    unfold DoWork
    cases hc : workConfigFromProto req.config with
    | error ce => simp [hc]
    | ok cfg => cases hr : runResult ctx cfg g numCPU <;> simp [hc, hr]
  · intro ce hc
    simp [DoWork, hc]
  · intro cfg e hc hr
    simp [DoWork, hc, hr]
  · intro sreq cfg hrep hc
    simp only [DoWorkServerStreaming, not_le.mpr hrep, if_false, hc]
    simp [ssLoop_clean cfg sreq.requestId ctx gens numCPU sreq.repeatCount.toNat 0]
  · intro sreq ce hrep hc
    simp [DoWorkServerStreaming, not_le.mpr hrep, hc]
  · intro e
    simp [DoWorkClientStreaming]

/-- Concrete instantiation of `C3_no_transport_error`: a unary request with
a nil config gets an `ok=false` response (not a call error), and a
server-streaming request with a valid config and an injected fault
(error rate 1) returns no call error. -/
theorem C3_no_transport_error_witness :
    DoWork (some ⟨"u", none⟩) ⟨false⟩ ⟨7/10⟩ 1 =
      .ok ⟨"u", false, "invalid config: config is required"⟩ ∧
    (DoWorkServerStreaming
      (some ⟨"s", some { okWorkCfg with errorRate := 1 }, 2⟩) noErr noErr
      ⟨false⟩ constGen 1).2 = none :=
  ⟨(C3_no_transport_error ⟨"u", none⟩ [] ⟨false⟩ ⟨7/10⟩ constGen 1).2.1
      "config is required" (by rfl),
    (C3_no_transport_error ⟨"u", none⟩ [] ⟨false⟩ ⟨7/10⟩ constGen 1).2.2.2.1
      ⟨"s", some { okWorkCfg with errorRate := 1 }, 2⟩
      { okCfg with ErrorRate := 1 } (by decide) (by rfl)⟩

/-- Whether one client-streaming item is tallied as failed: its config
fails to translate, or its run returns an error. -/
def itemFails (ctx : Ctx) (gen : Random) (numCPU : Nat) (req : DoWorkRequest) :
    Bool :=
  match workConfigFromProto req.config with
  | .error _ => true
  | .ok cfg => (runResult ctx cfg gen numCPU).isSome

/-- The (success, failed) tallies over the items starting at position `i`. -/
def tallies (ctx : Ctx) (gens : Nat → Random) (numCPU : Nat) :
    List DoWorkRequest → Nat → Int × Int
  | [], _ => (0, 0)
  | r :: rest, i =>
    let t := tallies ctx gens numCPU rest (i + 1)
    if itemFails ctx (gens i) numCPU r then (t.1, t.2 + 1) else (t.1 + 1, t.2)

/-- The identifier of the first request whose identifier is non-empty
(empty if there is none). -/
def firstId : List DoWorkRequest → String
  | [] => ""
  | r :: rest => if r.requestId = "" then firstId rest else r.requestId

lemma int32wrap_absorb_left (x y : Int) :
    int32wrap (int32wrap x + y) = int32wrap (x + y) := by
  unfold int32wrap
  omega

lemma int32wrap_absorb_pair (x y : Int) :
    int32wrap (int32wrap x + int32wrap y) = int32wrap (x + y) := by
  unfold int32wrap
  omega

lemma int32wrap_eq_self {x : Int} (h0 : 0 ≤ x) (h1 : x < 2147483648) :
    int32wrap x = x := by
  unfold int32wrap
  omega

lemma csStep_eq (ctx : Ctx) (gen : Random) (numCPU : Nat) (acc : CsAcc)
    (r : DoWorkRequest) :
    csStep ctx gen numCPU acc r =
      { total := int32wrap (acc.total + 1)
        success := if itemFails ctx gen numCPU r then acc.success
          else int32wrap (acc.success + 1)
        failed := if itemFails ctx gen numCPU r then int32wrap (acc.failed + 1)
          else acc.failed
        summaryReq := if acc.summaryReq = "" then r.requestId else acc.summaryReq } := by
  unfold csStep itemFails
  cases hc : workConfigFromProto r.config with
  | error e => simp [hc]
  | ok cfg => cases hr : runResult ctx cfg gen numCPU <;> simp [hc, hr]

lemma csLoop_eq (ctx : Ctx) (gens : Nat → Random) (numCPU : Nat) :
    ∀ (items : List DoWorkRequest) (i : Nat) (t s f : Int) (sr : String),
    csLoop ctx gens numCPU items i ⟨int32wrap t, int32wrap s, int32wrap f, sr⟩ =
      { total := int32wrap (t + items.length)
        success := int32wrap (s + (tallies ctx gens numCPU items i).1)
        failed := int32wrap (f + (tallies ctx gens numCPU items i).2)
        summaryReq := if sr = "" then firstId items else sr } := by
  intro items
  induction items with
  | nil =>
    intro i t s f sr
    simp [csLoop, tallies, firstId]
    split_ifs with h <;> simp_all
  | cons r rest ih =>
    intro i t s f sr
    have step : csLoop ctx gens numCPU (r :: rest) i
        ⟨int32wrap t, int32wrap s, int32wrap f, sr⟩ =
        csLoop ctx gens numCPU rest (i + 1)
          (csStep ctx (gens i) numCPU
            ⟨int32wrap t, int32wrap s, int32wrap f, sr⟩ r) := rfl
    rw [step, csStep_eq]
    dsimp only
    by_cases hf : itemFails ctx (gens i) numCPU r
    · have htal2 : tallies ctx gens numCPU (r :: rest) i =
          ((tallies ctx gens numCPU rest (i + 1)).1,
            (tallies ctx gens numCPU rest (i + 1)).2 + 1) := by
        simp [tallies, hf]
      simp only [hf, if_true]
      rw [int32wrap_absorb_left t 1, int32wrap_absorb_left f 1,
        ih (i + 1) (t + 1) s (f + 1) (if sr = "" then r.requestId else sr),
        htal2]
      simp only [CsAcc.mk.injEq, List.length_cons]
      refine ⟨?_, trivial, ?_, ?_⟩
      · unfold int32wrap
        push_cast
        omega
      · unfold int32wrap
        omega
      · by_cases ha : sr = "" <;> by_cases hrq : r.requestId = "" <;>
          simp [ha, hrq, firstId]
    · have htal2 : tallies ctx gens numCPU (r :: rest) i =
          ((tallies ctx gens numCPU rest (i + 1)).1 + 1,
            (tallies ctx gens numCPU rest (i + 1)).2) := by
        simp [tallies, hf]
      simp only [hf, Bool.not_eq_true, Bool.false_eq_true, if_false]
      rw [int32wrap_absorb_left t 1, int32wrap_absorb_left s 1,
        ih (i + 1) (t + 1) (s + 1) f (if sr = "" then r.requestId else sr),
        htal2]
      simp only [CsAcc.mk.injEq, List.length_cons]
      refine ⟨?_, ?_, trivial, ?_⟩
      · unfold int32wrap
        push_cast
        omega
      · unfold int32wrap
        omega
      · by_cases ha : sr = "" <;> by_cases hrq : r.requestId = "" <;>
          simp [ha, hrq, firstId]

lemma tallies_sum (ctx : Ctx) (gens : Nat → Random) (numCPU : Nat) :
    ∀ (l : List DoWorkRequest) (i : Nat),
    (tallies ctx gens numCPU l i).1 + (tallies ctx gens numCPU l i).2 =
      (l.length : Int) := by
  intro l
  induction l with
  | nil => intro i; simp [tallies]
  | cons r rest ih =>
    intro i
    have := ih (i + 1)
    by_cases hf : itemFails ctx (gens i) numCPU r <;>
      simp [tallies, hf] <;> omega

/-- The summary a clean client-streaming call sends: the first non-empty
id and the `int32`-wrapped total and tallies. -/
lemma doWorkClientStreaming_clean (items : List DoWorkRequest) (ctx : Ctx)
    (gens : Nat → Random) (numCPU : Nat) :
    DoWorkClientStreaming items none none ctx gens numCPU =
      .ok { requestId := firstId items
            total := int32wrap items.length
            success := int32wrap (tallies ctx gens numCPU items 0).1
            failed := int32wrap (tallies ctx gens numCPU items 0).2 } := by
  have h0 : (⟨0, 0, 0, ""⟩ : CsAcc) =
      ⟨int32wrap 0, int32wrap 0, int32wrap 0, ""⟩ := by
    norm_num [int32wrap]
  simp only [DoWorkClientStreaming]
  rw [h0, csLoop_eq]
  simp

lemma itemFails_blank (ctx : Ctx) (gen : Random) (numCPU : Nat) :
    itemFails ctx gen numCPU ⟨"", none⟩ = true := rfl

lemma tallies_replicate_blank (ctx : Ctx) (gens : Nat → Random) (numCPU : Nat) :
    ∀ (n : Nat) (i : Nat),
    tallies ctx gens numCPU (List.replicate n ⟨"", none⟩) i = (0, (n : Int)) := by
  intro n
  induction n with
  | zero => intro i; simp [tallies]
  | succ m ih =>
    intro i
    simp only [List.replicate_succ, tallies, itemFails_blank, if_true, ih (i + 1)]
    simp

lemma firstId_replicate_blank :
    ∀ n, firstId (List.replicate n (⟨"", none⟩ : DoWorkRequest)) = "" := by
  intro n
  induction n with
  | zero => rfl
  | succ m ih => simp [List.replicate_succ, firstId, ih]

/-- C7 fails as stated: the total/success/failed counters are Go `int32`
and wrap; a stream of 2^31 items (each with a nil config) yields a summary
with `total = -2^31`, not the item count 2^31. -/
theorem C7_counterexample :
    DoWorkClientStreaming (List.replicate 2147483648 ⟨"", none⟩) none none
        ⟨false⟩ constGen 1 =
      .ok ⟨"", -2147483648, 0, -2147483648⟩ ∧
    ((-2147483648 : Int) ≠
      ((List.replicate 2147483648 (⟨"", none⟩ : DoWorkRequest)).length : Int)) := by
  constructor
  · rw [doWorkClientStreaming_clean, tallies_replicate_blank,
      firstId_replicate_blank]
    simp only [List.length_replicate]
    norm_num [int32wrap]
  · simp only [List.length_replicate]
    norm_num

/-- C7 amended: on a clean close, every inbound item is tallied — each
config-translation failure as failed without aborting the stream, every
other item by its run outcome — into `int32` counters that wrap at 2^31:
the summary is the single value sent (no call error), its `total` is the
item count reduced to `int32` (so `total = n` whenever `n < 2^31`, as in
the 5-item example), and `success + failed = total` holds in `int32`
arithmetic, the untruncated tallies summing to the item count. -/
theorem C7_client_streaming_aggregate (items : List DoWorkRequest) (ctx : Ctx)
    (gens : Nat → Random) (numCPU : Nat) :
    DoWorkClientStreaming items none none ctx gens numCPU =
      .ok { requestId := firstId items
            total := int32wrap items.length
            success := int32wrap (tallies ctx gens numCPU items 0).1
            failed := int32wrap (tallies ctx gens numCPU items 0).2 } ∧
    (tallies ctx gens numCPU items 0).1 + (tallies ctx gens numCPU items 0).2 =
      (items.length : Int) ∧
    (∀ s, DoWorkClientStreaming items none none ctx gens numCPU = .ok s →
      int32wrap (s.success + s.failed) = s.total ∧
      ((items.length : Int) < 2147483648 → s.total = items.length)) := by
  refine ⟨doWorkClientStreaming_clean items ctx gens numCPU,
    tallies_sum ctx gens numCPU items 0, ?_⟩
  intro s hs
  rw [doWorkClientStreaming_clean items ctx gens numCPU] at hs
  simp only [Except.ok.injEq] at hs
  constructor
  · rw [← hs]
    dsimp only
    rw [int32wrap_absorb_pair, tallies_sum ctx gens numCPU items 0]
  · intro hlen
    rw [← hs]
    dsimp only
    exact int32wrap_eq_self (by positivity) hlen

/-- Five inbound items, the 2nd and 4th with nil configs. -/
def csItems5 : List DoWorkRequest :=
  [⟨"a", some okWorkCfg⟩, ⟨"b", none⟩, ⟨"c", some okWorkCfg⟩,
    ⟨"d", none⟩, ⟨"e", some okWorkCfg⟩]

/-- Concrete instantiation of `C7_client_streaming_aggregate`: 5 items
with 2 invalid configs and 3 successful runs yield total=5, failed=2,
success=3, and the wrapped relations hold at these small counts. -/
theorem C7_client_streaming_aggregate_witness :
    DoWorkClientStreaming csItems5 none none ⟨false⟩ constGen 1 =
      .ok ⟨"a", 5, 3, 2⟩ ∧
    int32wrap ((3 : Int) + 2) = (5 : Int) ∧
    (DoWorkSummary.mk "a" 5 3 2).total = ((csItems5.length : Int)) := by
  have h := C7_client_streaming_aggregate csItems5 ⟨false⟩ constGen 1
  have h1 : DoWorkClientStreaming csItems5 none none ⟨false⟩ constGen 1 =
      .ok ⟨"a", 5, 3, 2⟩ := h.1.trans (by rfl)
  have h3 := h.2.2 ⟨"a", 5, 3, 2⟩ h1
  exact ⟨h1, by simpa using h3.1, h3.2 (by norm_num [csItems5])⟩

/-- C8 fails as stated: when the first request on the stream carries an
empty identifier, the summary carries the identifier of a later request,
not that of the first request received: two items with ids "" and "b"
produce a summary with requestId "b", and "b" differs from "". -/
theorem C8_counterexample :
    DoWorkClientStreaming [⟨"", none⟩, ⟨"b", none⟩] none none ⟨false⟩ constGen 1 =
      .ok ⟨"b", 2, 0, 2⟩ ∧ ("b" : String) ≠ "" := by
  exact ⟨rfl, by decide⟩

/-- C8 amended: the summary's requestId is the identifier of the first
request received whose identifier is non-empty (empty when every received
identifier is empty); in particular it equals the first request's
identifier whenever that identifier is non-empty. -/
theorem C8_summary_request_id (items : List DoWorkRequest) (ctx : Ctx)
    (gens : Nat → Random) (numCPU : Nat) (s : DoWorkSummary)
    (h : DoWorkClientStreaming items none none ctx gens numCPU = .ok s) :
    s.requestId = firstId items ∧
    ∀ r rest, items = r :: rest → r.requestId ≠ "" →
      s.requestId = r.requestId := by
  have hs : s.requestId = firstId items := by
    rw [doWorkClientStreaming_clean items ctx gens numCPU] at h
    simp only [Except.ok.injEq] at h
    rw [← h]
  refine ⟨hs, ?_⟩
  intro r rest hitems hr
  rw [hs, hitems]
  simp [firstId, hr]

/-- Concrete instantiation of `C8_summary_request_id`: one item with id
"x" yields a summary carrying "x". -/
theorem C8_summary_request_id_witness :
    (DoWorkSummary.mk "x" 1 0 1).requestId = firstId [⟨"x", none⟩] :=
  (C8_summary_request_id [⟨"x", none⟩] ⟨false⟩ constGen 1 ⟨"x", 1, 0, 1⟩ rfl).1

end Burner

namespace LoadEngine

/-- Concrete instantiation of `C9_phase_ordering`: the trace of a valid
CPU run with error rate 0 and zero latency. -/
theorem C9_phase_ordering_witness :
    (Run ⟨true⟩ (cpuCfg 0 none) ⟨7/10⟩ 1).2 =
      Ev.cancelCtxCreated :: maybeSleepEv ⟨true⟩ (cpuCfg 0 none).Latency ++
        Ev.faultDecision ::
          (if shouldError (cpuCfg 0 none) ⟨7/10⟩ then []
            else (modeSwitch (cpuCfg 0 none)).2) :=
  (C9_phase_ordering ⟨true⟩ (cpuCfg 0 none) ⟨7/10⟩ 1 (by decide)).1

/-- Concrete instantiations of `C5_validator_rejections`: a CPU spec with
zero duration, an IO spec with zero ioBytes, an unknown mode, and an
over-limit duration are all rejected. -/
theorem C5_validator_rejections_witness :
    (validateConfig { cpuCfg 0 none with Duration := 0 } (DefaultLimits 1)).isSome ∧
    (validateConfig
      { Mode := "io", Duration := second, AllocMB := 0, Parallelism := 0
        IOBytes := 0, Latency := 0, ErrorRate := 0, Rand := none }
      (DefaultLimits 1)).isSome ∧
    (validateConfig { cpuCfg 0 none with Mode := "gpu" } (DefaultLimits 1)).isSome ∧
    (validateConfig { cpuCfg 0 none with Duration := 61 * second }
      (DefaultLimits 1)).isSome :=
  ⟨C5_validator_rejections _ _ (Or.inl (by norm_num [cpuCfg])),
    C5_validator_rejections _ _
      (Or.inr (Or.inr (Or.inr (Or.inr (Or.inr (Or.inr
        (Or.inl ⟨rfl, by norm_num⟩))))))),
    C5_validator_rejections _ _
      (Or.inr (Or.inr (Or.inr (Or.inr (Or.inr (Or.inr (Or.inr (Or.inl
        (by simp [cpuCfg, ModeCPU, ModeMem, ModeCPUMem, ModeIo]))))))))),
    C5_validator_rejections _ _
      (Or.inr (Or.inr (Or.inr (Or.inr (Or.inr (Or.inr (Or.inr (Or.inr
        (by norm_num [cpuCfg, DefaultLimits, second])))))))))⟩

end LoadEngine
